import Mathlib

/-!
Verification of the AgriPlot verification-workflow engine.

This file gives a shallow embedding, in Lean 4, of the verification
workflow of the AgriPlot repository:

- `listings/models.py` : `VerificationStatus` (stage record, `update_stage`,
  `add_api_response`, `progress_percentage`), `VerificationTask`,
  `VerificationLog`, and the `Plot` fields the workflow reads;
- `listings/verification_service.py` : `create_verification_tasks` and
  `check_plot_verification_completion`;
- `listings/services/ardhisasa_service.py` : `start_verification`,
  `search_title`, `verify_owner`, `check_encumbrances`, `handle_failure`;
- `listings/views.py` : the critical-field reset block of `edit_plot`.

Times are modelled as natural numbers, databases as lists of records, and
Python dictionaries as association lists.  Python `None` is `Option.none`;
a Python `TypeError` raised by subscripting `None` is modelled with
`Except.error`.  Decimal and float fields (`area`, `price`) are modelled as
rationals: every finite floating-point or decimal value is a rational, and
the only operations the workflow performs on them are comparisons, which
agree with the rational ones.
-/

/-- Raw payload of the (mocked) Ardhisasa title-search API call, following
the shape produced by `mock_title_search` in `ardhisasa_service.py`.  The
`parcel_details` sub-dictionary is opaque to the workflow and kept as a
rendered string. -/
structure TitleResponse where
  verified : Bool
  reference : String
  registered_owner : String
  parcel_details : String
  fee : Nat
  message : String
deriving DecidableEq, Repr

/-- Result envelope returned by the individual verification steps of
`ArdhisasaVerificationService` : the Python dictionaries
`\x7b'success': True, 'data': response\x7d` and
`\x7b'success': False, 'error': msg\x7d`. -/
structure StepResult where
  success : Bool
  error : Option String := none
  data : Option TitleResponse := none
deriving DecidableEq, Repr

/-- Values stored in the `stage_details` JSON blob of a
`VerificationStatus` row. -/
inductive DVal where
  | s : String → DVal
  | n : Nat → DVal
  | strs : List String → DVal
  | res : StepResult → DVal
  | optRes : Option StepResult → DVal
deriving DecidableEq, Repr

/-- A stage-detail dictionary: string keys mapped to detail values. -/
abbrev Detail := List (String × DVal)

/-- One entry of the `api_responses` audit list, as appended by
`VerificationStatus.add_api_response` : capture time plus the payload
`\x7b'stage': ..., 'response': ...\x7d` passed by `search_title`. -/
structure ApiEntry where
  timestamp : Nat
  stage : String
  response : TitleResponse
deriving DecidableEq, Repr

/-- The `VerificationStatus` model of `listings/models.py` (lines 465-561):
a polymorphic verification record with a current stage, a JSON
`stage_details` blob, an append-only `api_responses` list and one nullable
timestamp column per selected stage (lines 495-501). -/
structure VerificationStatus where
  content_type : String
  object_id : Nat
  current_stage : String := "document_uploaded"
  stage_details : List (String × Detail) := []
  is_complete : Bool := false
  api_responses : List ApiEntry := []
  search_reference : String := ""
  search_fee_paid : Option Nat := none
  document_uploaded_at : Option Nat := none
  api_started_at : Option Nat := none
  title_search_at : Option Nat := none
  owner_verified_at : Option Nat := none
  admin_review_at : Option Nat := none
  approved_at : Option Nat := none
  rejected_at : Option Nat := none
deriving DecidableEq, Repr

/-- The `STAGES` choice list of `VerificationStatus` (models.py lines
468-478): stage key paired with its display label. -/
def STAGES : List (String × String) :=
  [("document_uploaded", "Documents Uploaded"),
   ("api_verification_started", "API Verification Started"),
   ("title_search_completed", "Title Search Completed"),
   ("owner_verified", "Owner Identity Verified"),
   ("encumbrance_check", "Encumbrance Check"),
   ("physical_location_verified", "Physical Location Verified"),
   ("admin_review", "Under Admin Review"),
   ("approved", "Approved"),
   ("rejected", "Rejected")]

/-- The stage keys, in order: `[stage[0] for stage in STAGES]`. -/
def stageKeys : List String := STAGES.map Prod.fst

/-- Names of the nullable per-stage timestamp attributes that exist on a
`VerificationStatus` row (models.py lines 495-501). -/
def tsAttrNames : List String :=
  ["document_uploaded_at", "api_started_at", "title_search_at",
   "owner_verified_at", "admin_review_at", "approved_at", "rejected_at"]

/-- Python `hasattr(self, name)` restricted to the per-stage timestamp
attributes of `VerificationStatus`. -/
def hasTimestampAttr (name : String) : Bool := tsAttrNames.contains name

/-- Python `setattr(self, name, timezone.now())` on a timestamp attribute:
overwrites the named column unconditionally; a name that matches no column
leaves the record unchanged (such a `setattr` is unreachable, since
`update_stage` guards it with `hasattr`). -/
def setTimestampAttr (v : VerificationStatus) (name : String) (t : Nat) :
    VerificationStatus :=
  if name = "document_uploaded_at" then { v with document_uploaded_at := some t }
  else if name = "api_started_at" then { v with api_started_at := some t }
  else if name = "title_search_at" then { v with title_search_at := some t }
  else if name = "owner_verified_at" then { v with owner_verified_at := some t }
  else if name = "admin_review_at" then { v with admin_review_at := some t }
  else if name = "approved_at" then { v with approved_at := some t }
  else if name = "rejected_at" then { v with rejected_at := some t }
  else v

/-- Reads the timestamp attribute with the given name (`none` for a name
that is not a timestamp column). -/
def getTimestampAttr (v : VerificationStatus) (name : String) : Option Nat :=
  if name = "document_uploaded_at" then v.document_uploaded_at
  else if name = "api_started_at" then v.api_started_at
  else if name = "title_search_at" then v.title_search_at
  else if name = "owner_verified_at" then v.owner_verified_at
  else if name = "admin_review_at" then v.admin_review_at
  else if name = "approved_at" then v.approved_at
  else if name = "rejected_at" then v.rejected_at
  else none

/-- Python dictionary assignment `m[k] = d` on an insertion-ordered
dictionary represented as an association list: replaces the value of an
existing key in place, otherwise appends the new binding. -/
def setKey (m : List (String × Detail)) (k : String) (d : Detail) :
    List (String × Detail) :=
  match m with
  | [] => [(k, d)]
  | (k0, d0) :: rest => if k0 = k then (k, d) :: rest else (k0, d0) :: setKey rest k d

/-- `VerificationStatus.update_stage` (models.py lines 509-523): stores the
given stage name, merges truthy details under the stage key, stamps the
`f"\x7bstage\x7d_at"` attribute when it exists, and marks the record
complete when the stage is `approved`.  The empty detail list models both
Python `None` and an empty dictionary (both falsy). -/
def update_stage (v : VerificationStatus) (stage : String) (details : Detail)
    (now : Nat) : VerificationStatus :=
  let v1 := { v with current_stage := stage }
  let v2 :=
    if details = [] then v1
    else { v1 with stage_details := setKey v1.stage_details stage details }
  let v3 :=
    if hasTimestampAttr (stage ++ "_at") then setTimestampAttr v2 (stage ++ "_at") now
    else v2
  if stage = "approved" then { v3 with is_complete := true } else v3

/-- `VerificationStatus.add_api_response` (models.py lines 525-531):
appends the payload with its capture time to the `api_responses` list. -/
def add_api_response (v : VerificationStatus) (stage : String)
    (resp : TitleResponse) (now : Nat) : VerificationStatus :=
  { v with api_responses := v.api_responses ++ [⟨now, stage, resp⟩] }

/-- `VerificationStatus.progress_percentage` (models.py lines 533-547):
100 for both terminal stages, otherwise the integer-truncated
`(index + 1) / len(stages) * 100` over the ordered stage keys (natural
division is exact truncation here; the float rounding of the Python
expression cannot change the integer part at any of these nine values). -/
def progress_percentage (v : VerificationStatus) : Nat :=
  if v.current_stage = "approved" then 100
  else if v.current_stage = "rejected" then 100
  else if stageKeys.contains v.current_stage then
    (stageKeys.indexOf v.current_stage + 1) * 100 / stageKeys.length
  else 0

/-! The external-verification orchestrator
(`listings/services/ardhisasa_service.py`).  The simulated API reply of
`mock_title_search` is the input of `search_title`: the service calls the
external registry exactly once, and the reply envelope is a parameter of
the embedding. -/

/-- Outcome dictionary returned by `start_verification` : either the
failure envelope produced by `handle_failure`, or the success dictionary
listing the three step results. -/
inductive StartOutcome where
  | failed : StepResult → StartOutcome
  | complete : StepResult → StepResult → Option StepResult → StartOutcome
deriving DecidableEq, Repr

/-- `ArdhisasaVerificationService.verify_owner` (ardhisasa_service.py
lines 84-87): the body is `pass`, so the call returns Python `None`. -/
def verify_owner : Option StepResult := none

/-- `ArdhisasaVerificationService.check_encumbrances` (ardhisasa_service.py
lines 89-92): the body is `pass`, so the call returns Python `None`. -/
def check_encumbrances : Option StepResult := none

/-- `ArdhisasaVerificationService.handle_failure` (lines 122-128): forces
the record to `rejected`, storing the failure reason and the raw result in
the stage details, and returns the failure envelope. -/
def handle_failure (v : VerificationStatus) (result : StepResult) (now : Nat) :
    VerificationStatus × StartOutcome :=
  let v := update_stage v "rejected"
    [("reason", DVal.s (result.error.getD "Verification failed")),
     ("details", DVal.res result)] now
  (v, StartOutcome.failed { success := false, error := result.error })

/-- `ArdhisasaVerificationService.search_title` (lines 55-82): records the
raw reply in `api_responses`; on a verified reply advances the record to
`title_search_completed` with reference, owner and parcel details and
stores the search reference and fee, returning a success envelope;
otherwise returns a failure envelope carrying the reply message. -/
def search_title (v : VerificationStatus) (resp : TitleResponse) (now : Nat) :
    VerificationStatus × StepResult :=
  let v := add_api_response v "title_search" resp now
  if resp.verified then
    let v := update_stage v "title_search_completed"
      [("search_reference", DVal.s resp.reference),
       ("owner", DVal.s resp.registered_owner),
       ("parcel", DVal.s resp.parcel_details)] now
    let v := { v with search_reference := resp.reference,
                      search_fee_paid := some resp.fee }
    (v, { success := true, data := some resp })
  else
    (v, { success := false, error := some resp.message })

/-- `ArdhisasaVerificationService.start_verification` (lines 19-53):
advances to `api_verification_started`, runs the title search, fails fast
through `handle_failure` on an unsuccessful title search, and otherwise
subscripts the value returned by `verify_owner` — which is Python `None`,
so the subscription raises a `TypeError` (modelled as `Except.error`).
The dead code past that subscription is embedded as written: a failed
owner check would fail fast, and otherwise the record would advance to
`admin_review` with the three step results as details. -/
def start_verification (v : VerificationStatus) (resp : TitleResponse)
    (now : Nat) : Except String (VerificationStatus × StartOutcome) :=
  let v := update_stage v "api_verification_started" [] now
  let p := search_title v resp now
  let v := p.1
  let title_result := p.2
  if title_result.success = false then Except.ok (handle_failure v title_result now)
  else
    match verify_owner with
    | none => Except.error "TypeError: NoneType object is not subscriptable"
    | some owner_result =>
      if owner_result.success = false then Except.ok (handle_failure v owner_result now)
      else
        let encumbrance_result := check_encumbrances
        let v := update_stage v "admin_review"
          [("title_search", DVal.res title_result),
           ("owner_verification", DVal.res owner_result),
           ("encumbrance_check", DVal.optRes encumbrance_result)] now
        Except.ok (v, StartOutcome.complete title_result owner_result encumbrance_result)

/-- `ArdhisasaVerificationService.mock_title_search` (lines 94-109): the
canned reply used while the real Ardhisasa integration is absent; it is
always verified, with a generated reference and a fixed fee and message. -/
def mock_title_search (owner_name : String) (title_number : String)
    (now : Nat) : TitleResponse :=
  { verified := true,
    reference := "SRCH" ++ toString now,
    registered_owner := owner_name,
    parcel_details := "title_number: " ++ title_number ++
      ", size: 5.0 acres, registration_date: 2020-01-15, land_use: Agricultural",
    fee := 500,
    message := "Title verified successfully" }

/-! The task registry and completion aggregator
(`listings/verification_service.py`) together with the models they touch. -/

/-- The fields of the `Plot` model (models.py lines 186-344) that the
verification workflow reads.  `area` is a float and `price` a decimal in
the source; both are modelled as rationals. -/
structure Plot where
  id : Nat
  title : String
  county : String
  subcounty : String
  location : String
  area : Rat
  price : Rat
  land_type : String
deriving DecidableEq

/-- The `VerificationTask` model (models.py lines 822-853). -/
structure VerificationTask where
  plot_id : Nat
  verification_type : String
  status : String
  assigned_to : Option String := none
  assigned_at : Option Nat := none
  completed_at : Option Nat := none
  notes : String := ""
  approved : Option Bool := none
deriving DecidableEq, Repr

/-- The `VerificationLog` model (models.py lines 856-873). -/
structure VerificationLog where
  plot_id : Nat
  verified_by : Option String := none
  verification_type : String
  comment : String
deriving DecidableEq, Repr

/-- The persistent state the plot-verification services read and write:
the `VerificationTask` table, the `VerificationStatus` table (reached from
a plot through the `verification` generic relation of models.py line 285),
and the `VerificationLog` table. -/
structure SystemState where
  tasks : List VerificationTask
  verifications : List VerificationStatus
  logs : List VerificationLog
deriving DecidableEq, Repr

/-- Does any task for this plot and verification type exist? -/
def hasTask (tasks : List VerificationTask) (pid : Nat) (vtype : String) : Bool :=
  tasks.any fun t => t.plot_id == pid && t.verification_type == vtype

/-- The task row created by the `get_or_create` defaults of
`create_verification_tasks` : pending, assigned now, nothing else set. -/
def mkPendingTask (pid : Nat) (vtype : String) (now : Nat) : VerificationTask :=
  { plot_id := pid, verification_type := vtype, status := "pending",
    assigned_at := some now }

/-- `VerificationTask.objects.get_or_create(plot=..., verification_type=...,
defaults=...)` : returns the table unchanged with `created = false` when a
row with that key exists, otherwise inserts the defaults row. -/
def get_or_create_task (tasks : List VerificationTask) (pid : Nat)
    (vtype : String) (now : Nat) : List VerificationTask × Bool :=
  if hasTask tasks pid vtype then (tasks, false)
  else (tasks ++ [mkPendingTask pid vtype now], true)

/-- `VerificationService.create_verification_tasks` (verification_service.py
lines 14-71): get-or-creates a `document_review` task always, an
`extension_review` task for agricultural land, and a `surveyor_inspection`
task for plots over 50 acres; logs the creation and returns the list of
newly created task types, in that order. -/
def create_verification_tasks (plot : Plot) (st : SystemState) (now : Nat) :
    List String × SystemState :=
  let p1 := get_or_create_task st.tasks plot.id "document_review" now
  let created1 := if p1.2 then ["document_review"] else []
  let p2 :=
    if plot.land_type = "agricultural" then
      get_or_create_task p1.1 plot.id "extension_review" now
    else (p1.1, false)
  let created2 := created1 ++ (if p2.2 then ["extension_review"] else [])
  let p3 :=
    if plot.area > 50 then get_or_create_task p2.1 plot.id "surveyor_inspection" now
    else (p2.1, false)
  let created3 := created2 ++ (if p3.2 then ["surveyor_inspection"] else [])
  let log : VerificationLog :=
    { plot_id := plot.id, verification_type := "system",
      comment := "Created verification tasks: " ++ String.intercalate ", " created3 }
  (created3, { st with tasks := p3.1, logs := st.logs ++ [log] })

/-- Key predicate of the `verification` generic relation: the
`VerificationStatus` rows bound to a given plot. -/
def isPlotVerification (pid : Nat) (v : VerificationStatus) : Bool :=
  v.content_type == "plot" && v.object_id == pid

/-- `plot.verification.first()` : first row of the generic relation. -/
def firstVerification (st : SystemState) (pid : Nat) : Option VerificationStatus :=
  (st.verifications.filter (isPlotVerification pid)).head?

/-- Replaces the first row satisfying the predicate by its image, as a
`save()` of the fetched row does. -/
def replaceFirst (p : VerificationStatus → Bool)
    (f : VerificationStatus → VerificationStatus) :
    List VerificationStatus → List VerificationStatus
  | [] => []
  | v :: rest => if p v then f v :: rest else v :: replaceFirst p f rest

/-- Number of tasks of the plot with status `pending` or `in_progress`
(the count taken by `check_plot_verification_completion`). -/
def pendingTaskCount (st : SystemState) (pid : Nat) : Nat :=
  (st.tasks.filter fun t =>
    t.plot_id == pid && (t.status == "pending" || t.status == "in_progress")).length

/-- The log row written when the aggregator approves a plot. -/
def approvalLog (pid : Nat) : VerificationLog :=
  { plot_id := pid, verification_type := "approval",
    comment := "All verification tasks completed. Plot approved." }

/-- `VerificationService.check_plot_verification_completion`
(verification_service.py lines 135-164): counts the pending and
in-progress tasks of the plot; when none remain and the plot has a
verification record, sets that record to `approved` with `approved_at`
stamped, writes an approval log row and returns true; in every other case
returns false leaving the state untouched. -/
def check_plot_verification_completion (plot : Plot) (st : SystemState)
    (now : Nat) : Bool × SystemState :=
  if pendingTaskCount st plot.id = 0 then
    match firstVerification st plot.id with
    | some _ =>
      let vs := replaceFirst (isPlotVerification plot.id)
        (fun v => { v with current_stage := "approved", approved_at := some now })
        st.verifications
      (true, { st with verifications := vs, logs := st.logs ++ [approvalLog plot.id] })
    | none => (false, st)
  else (false, st)

/-! The critical-edit reset block of `edit_plot`
(`listings/views.py` lines 1110-1165). -/

/-- The cleaned form fields of `PlotForm` that the critical-change check
of `edit_plot` compares against the stored plot. -/
structure CleanedData where
  title : String
  county : String
  subcounty : String
  area : Rat
  price : Rat
deriving DecidableEq

/-- The `location` value generated by `PlotForm.clean` (forms.py line 635):
the county and subcounty joined as `f"\x7bcounty\x7d - \x7bsubcounty\x7d"`. -/
def combinedLocation (county subcounty : String) : String :=
  county ++ " - " ++ subcounty

/-- The `critical_changes` list collected by `edit_plot` (views.py lines
1112-1123): one entry per changed field among title, county, subcounty,
area and price, in that order. -/
def critical_changes (orig : Plot) (d : CleanedData) : List String :=
  (if orig.title ≠ d.title then ["title"] else []) ++
  (if orig.county ≠ d.county then ["county"] else []) ++
  (if orig.subcounty ≠ d.subcounty then ["subcounty"] else []) ++
  (if orig.area ≠ d.area then ["area"] else []) ++
  (if orig.price ≠ d.price then ["price"] else [])

/-- The log row written by the reset block (views.py lines 1160-1165). -/
def resetLog (pid : Nat) (username : String) (changes : List String) :
    VerificationLog :=
  { plot_id := pid, verified_by := some username, verification_type := "system",
    comment := "Verification reset due to changes: " ++
      String.intercalate ", " changes }

/-- The mutation applied to the fetched (or freshly created) verification
record by views.py lines 1140-1149: stage back to `document_uploaded`,
terminal timestamps cleared, and a `last_edit` entry stored in the stage
details.  The `previous_stage` value is read after the stage was already
reset, exactly as in the source. -/
def resetVerificationRecord (username : String) (now : Nat)
    (changes : List String) (v : VerificationStatus) : VerificationStatus :=
  let v1 := { v with current_stage := "document_uploaded",
                     approved_at := none, rejected_at := none }
  { v1 with stage_details := (setKey v1.stage_details "last_edit"
      [("edited_by", DVal.s username), ("edited_at", DVal.n now),
       ("changes", DVal.strs changes), ("previous_stage", DVal.s v1.current_stage)]) }

/-- The per-row effect of the bulk task reset of views.py lines 1152-1157:
tasks of the edited plot go back to `pending` with assignee, completion
time and approval cleared; other rows are untouched. -/
def resetTask (pid : Nat) (t : VerificationTask) : VerificationTask :=
  if t.plot_id == pid then
    { t with status := "pending", assigned_to := none,
             completed_at := none, approved := none }
  else t

/-- The verification-reset block of `edit_plot` (views.py lines 1110-1165),
run after the form saved: when at least one critical field changed,
get-or-creates the verification record of the plot, resets it, resets all
tasks of the plot to pending and writes the reset log row; otherwise the
verification state is untouched. -/
def edit_plot_postsave (orig : Plot) (d : CleanedData) (st : SystemState)
    (username : String) (now : Nat) : SystemState :=
  let changes := critical_changes orig d
  if changes = [] then st
  else
    let st1 :=
      if (firstVerification st orig.id).isSome then st
      else { st with verifications :=
        st.verifications ++ [{ content_type := "plot", object_id := orig.id }] }
    let vs := replaceFirst (isPlotVerification orig.id)
      (resetVerificationRecord username now changes) st1.verifications
    { st1 with verifications := vs,
               tasks := st1.tasks.map (resetTask orig.id),
               logs := st1.logs ++ [resetLog orig.id username changes] }

/-! Auxiliary notions used by the theorem statements. -/

/-- One `update_stage` invocation: target stage, details and call time. -/
structure StageCall where
  stage : String
  details : Detail
  time : Nat

/-- Applies a sequence of `update_stage` calls to a record, in order. -/
def applyCalls (v : VerificationStatus) (cs : List StageCall) : VerificationStatus :=
  cs.foldl (fun v c => update_stage v c.stage c.details c.time) v

/-- The uniqueness invariant of the task table: no two rows share a
(plot, verification type) key. -/
def UniqueTaskKeys (l : List VerificationTask) : Prop :=
  l.Pairwise fun a b =>
    ¬(a.plot_id = b.plot_id ∧ a.verification_type = b.verification_type)

/-- A list of numbers is non-decreasing from left to right. -/
def nondecreasingB : List Nat → Bool
  | [] => true
  | [_] => true
  | a :: b :: rest => decide (a ≤ b) && nondecreasingB (b :: rest)

/-- Looks a key up inside one stage entry of the stage details. -/
def detailEntry (v : VerificationStatus) (stage key : String) : Option DVal :=
  (v.stage_details.lookup stage).bind fun d => d.lookup key

/-! Concrete fixtures, used by the witnesses and counterexamples. -/

/-- A fresh verification record of a landowner profile. -/
def sampleRecord : VerificationStatus := { content_type := "landowner", object_id := 1 }

/-- The sample record moved to the given stage. -/
def mkStageRecord (s : String) : VerificationStatus :=
  { content_type := "landowner", object_id := 1, current_stage := s }

/-- A fresh verification record bound to plot 7. -/
def plotRecord7 : VerificationStatus := { content_type := "plot", object_id := 7 }

/-- A 10-acre agricultural plot. -/
def samplePlot : Plot :=
  { id := 7, title := "Green acres", county := "Nakuru", subcounty := "Njoro",
    location := "Nakuru - Njoro", area := 10, price := 500000,
    land_type := "agricultural" }

/-- A state holding only the verification record of plot 7. -/
def sampleState : SystemState :=
  { tasks := [], verifications := [plotRecord7], logs := [] }

/-- A failed title-search reply. -/
def failResponse : TitleResponse :=
  { verified := false, reference := "", registered_owner := "",
    parcel_details := "", fee := 0, message := "Owner mismatch" }

/-- Cleaned form data equal to `samplePlot` except for the area. -/
def sampleCleaned : CleanedData :=
  { title := "Green acres", county := "Nakuru", subcounty := "Njoro",
    area := 12, price := 500000 }

/-! Helper lemmas about the record operations. -/

-- getTimestampAttr reads only the seven timestamp columns.
theorem getTs_congr (v w : VerificationStatus)
    (h1 : v.document_uploaded_at = w.document_uploaded_at)
    (h2 : v.api_started_at = w.api_started_at)
    (h3 : v.title_search_at = w.title_search_at)
    (h4 : v.owner_verified_at = w.owner_verified_at)
    (h5 : v.admin_review_at = w.admin_review_at)
    (h6 : v.approved_at = w.approved_at)
    (h7 : v.rejected_at = w.rejected_at) (name : String) :
    getTimestampAttr v name = getTimestampAttr w name := by
  unfold getTimestampAttr
  split_ifs <;> first | assumption | rfl

-- Reading a timestamp attribute other than the one just set is unchanged.
set_option maxHeartbeats 1000000 in
theorem getTs_set_ne (v : VerificationStatus) (n : String) (t : Nat) (m : String)
    (hne : m ≠ n) : getTimestampAttr (setTimestampAttr v n t) m = getTimestampAttr v m := by
  unfold setTimestampAttr
  split_ifs <;>
    first
      | rfl
      | (subst_vars
         unfold getTimestampAttr
         split_ifs <;> first | rfl | (exfalso; exact hne (by assumption)))

-- Setting an existing timestamp attribute stores the new time.
theorem getTs_set_self (v : VerificationStatus) (n : String) (t : Nat)
    (h : hasTimestampAttr n = true) :
    getTimestampAttr (setTimestampAttr v n t) n = some t := by
  have hmem : n ∈ tsAttrNames := by simpa [hasTimestampAttr] using h
  simp only [tsAttrNames, List.mem_cons, List.not_mem_nil, or_false] at hmem
  rcases hmem with rfl | rfl | rfl | rfl | rfl | rfl | rfl <;>
    simp [setTimestampAttr, getTimestampAttr]

-- The final approved-flag update of update_stage never touches a timestamp.
theorem getTs_aux (w : VerificationStatus) (s name : String) :
    getTimestampAttr (if s = "approved" then { w with is_complete := true } else w) name
      = getTimestampAttr w name := by
  split_ifs
  · exact getTs_congr _ _ rfl rfl rfl rfl rfl rfl rfl name
  · rfl

-- Master description of the timestamps after update_stage: the attribute of
-- the target stage is stamped when it exists; everything else is unchanged.
theorem getTs_update_stage (v : VerificationStatus) (s : String) (d : Detail)
    (t : Nat) (name : String) :
    getTimestampAttr (update_stage v s d t) name =
      if hasTimestampAttr (s ++ "_at") = true ∧ name = s ++ "_at" then some t
      else getTimestampAttr v name := by
  simp only [update_stage]
  rw [getTs_aux]
  rcases em (d = []) with hd | hd
  · rw [if_pos hd]
    by_cases hts : hasTimestampAttr (s ++ "_at") = true
    · rw [if_pos hts]
      by_cases hname : name = s ++ "_at"
      · subst hname
        rw [if_pos (And.intro hts rfl)]
        exact getTs_set_self _ _ _ hts
      · rw [getTs_set_ne _ _ _ _ hname, if_neg (fun hc => hname hc.2)]
        exact getTs_congr _ _ rfl rfl rfl rfl rfl rfl rfl name
    · rw [if_neg hts, if_neg (fun hc => hts hc.1)]
      exact getTs_congr _ _ rfl rfl rfl rfl rfl rfl rfl name
  · rw [if_neg hd]
    by_cases hts : hasTimestampAttr (s ++ "_at") = true
    · rw [if_pos hts]
      by_cases hname : name = s ++ "_at"
      · subst hname
        rw [if_pos (And.intro hts rfl)]
        exact getTs_set_self _ _ _ hts
      · rw [getTs_set_ne _ _ _ _ hname, if_neg (fun hc => hname hc.2)]
        exact getTs_congr _ _ rfl rfl rfl rfl rfl rfl rfl name
    · rw [if_neg hts, if_neg (fun hc => hts hc.1)]
      exact getTs_congr _ _ rfl rfl rfl rfl rfl rfl rfl name

theorem setTs_current_stage (v : VerificationStatus) (name : String) (t : Nat) :
    (setTimestampAttr v name t).current_stage = v.current_stage := by
  unfold setTimestampAttr; split_ifs <;> rfl

theorem setTs_is_complete (v : VerificationStatus) (name : String) (t : Nat) :
    (setTimestampAttr v name t).is_complete = v.is_complete := by
  unfold setTimestampAttr; split_ifs <;> rfl

theorem setTs_stage_details (v : VerificationStatus) (name : String) (t : Nat) :
    (setTimestampAttr v name t).stage_details = v.stage_details := by
  unfold setTimestampAttr; split_ifs <;> rfl

theorem setTs_api_responses (v : VerificationStatus) (name : String) (t : Nat) :
    (setTimestampAttr v name t).api_responses = v.api_responses := by
  unfold setTimestampAttr; split_ifs <;> rfl

theorem setTs_content_type (v : VerificationStatus) (name : String) (t : Nat) :
    (setTimestampAttr v name t).content_type = v.content_type := by
  unfold setTimestampAttr; split_ifs <;> rfl

theorem setTs_object_id (v : VerificationStatus) (name : String) (t : Nat) :
    (setTimestampAttr v name t).object_id = v.object_id := by
  unfold setTimestampAttr; split_ifs <;> rfl

theorem setTs_search_reference (v : VerificationStatus) (name : String) (t : Nat) :
    (setTimestampAttr v name t).search_reference = v.search_reference := by
  unfold setTimestampAttr; split_ifs <;> rfl

theorem setTs_search_fee_paid (v : VerificationStatus) (name : String) (t : Nat) :
    (setTimestampAttr v name t).search_fee_paid = v.search_fee_paid := by
  unfold setTimestampAttr; split_ifs <;> rfl

-- Projections of update_stage.
theorem update_stage_current_stage (v : VerificationStatus) (s : String)
    (d : Detail) (t : Nat) : (update_stage v s d t).current_stage = s := by
  simp only [update_stage]
  split_ifs <;> simp [setTs_current_stage]

theorem update_stage_is_complete (v : VerificationStatus) (s : String)
    (d : Detail) (t : Nat) :
    (update_stage v s d t).is_complete = if s = "approved" then true else v.is_complete := by
  simp only [update_stage]
  split_ifs <;> simp [setTs_is_complete]

theorem update_stage_api_responses (v : VerificationStatus) (s : String)
    (d : Detail) (t : Nat) :
    (update_stage v s d t).api_responses = v.api_responses := by
  simp only [update_stage]
  split_ifs <;> simp [setTs_api_responses]

theorem update_stage_stage_details (v : VerificationStatus) (s : String)
    (d : Detail) (t : Nat) :
    (update_stage v s d t).stage_details =
      if d = [] then v.stage_details else setKey v.stage_details s d := by
  simp only [update_stage]
  split_ifs <;> simp_all [setTs_stage_details]

theorem update_stage_content_type (v : VerificationStatus) (s : String)
    (d : Detail) (t : Nat) :
    (update_stage v s d t).content_type = v.content_type := by
  simp only [update_stage]
  split_ifs <;> simp [setTs_content_type]

theorem update_stage_object_id (v : VerificationStatus) (s : String)
    (d : Detail) (t : Nat) :
    (update_stage v s d t).object_id = v.object_id := by
  simp only [update_stage]
  split_ifs <;> simp [setTs_object_id]

/-! Claims C7, C8, C9, C10 : behaviour of `update_stage`. -/

/-- Claim C7, counterexample: the stage name `bogus_stage` is not in the
StageGraph, yet `update_stage` stores it as the current stage and raises no
error, so the claimed `InvalidStageError` validation does not exist. -/
theorem updateStage_invalid_counterexample :
    "bogus_stage" ∉ stageKeys
    ∧ (update_stage sampleRecord "bogus_stage" [] 5).current_stage = "bogus_stage" := by
  decide

/-- Claim C7, amended: `update_stage` performs no validation at all — for
every record and every stage name, recognised or not, it simply stores the
name as the current stage and never fails. -/
theorem updateStage_no_validation :
    ∀ (v : VerificationStatus) (s : String) (d : Detail) (t : Nat),
      (update_stage v s d t).current_stage = s :=
  update_stage_current_stage

/-- Claim C8, counterexample: advancing a fresh record to `rejected` leaves
`is_complete` false even though the stage is `rejected`, refuting the
claimed equivalence between completion and being in a terminal stage. -/
theorem isComplete_rejected_counterexample :
    (update_stage sampleRecord "rejected" [] 5).current_stage = "rejected"
    ∧ (update_stage sampleRecord "rejected" [] 5).is_complete = false := by
  decide

/-- Claim C8, amended: after any sequence of `update_stage` calls,
`is_complete` is true exactly when it was already true or some call in the
sequence advanced to `approved`; advancing to `rejected` never sets it. -/
theorem isComplete_sticky_approved :
    ∀ (v : VerificationStatus) (cs : List StageCall),
      (applyCalls v cs).is_complete
        = (v.is_complete || cs.any fun c => c.stage == "approved") := by
  intro v cs
  induction cs generalizing v with
  | nil => simp [applyCalls]
  | cons c rest ih =>
    simp only [applyCalls, List.foldl_cons, List.any_cons]
    rw [show (List.foldl (fun v c => update_stage v c.stage c.details c.time) (update_stage v c.stage c.details c.time) rest) = applyCalls (update_stage v c.stage c.details c.time) rest from rfl]
    rw [ih, update_stage_is_complete]
    by_cases hc : c.stage = "approved"
    · simp [hc]
    · have hb : (c.stage == "approved") = false := by simpa using hc
      simp [hb, hc]

/-- Claim C9, counterexample: stamping is not write-once — re-entering the
`approved` stage at time 2 overwrites the timestamp recorded at time 1. -/
theorem timestamp_overwrite_counterexample :
    (update_stage sampleRecord "approved" [] 1).approved_at = some 1
    ∧ (update_stage (update_stage sampleRecord "approved" [] 1) "approved" [] 2).approved_at
        = some 2 := by
  decide

/-- Claim C9, amended: `update_stage` leaves the timestamp attributes of all
other stages unchanged, and stamps the attribute of the target stage with
the current time whenever that attribute exists — unconditionally, also
overwriting a previously recorded value on re-entry. -/
theorem updateStage_timestamp_behavior :
    ∀ (v : VerificationStatus) (s : String) (d : Detail) (t : Nat),
      (∀ name, name ≠ s ++ "_at" →
        getTimestampAttr (update_stage v s d t) name = getTimestampAttr v name)
      ∧ (hasTimestampAttr (s ++ "_at") = true →
        getTimestampAttr (update_stage v s d t) (s ++ "_at") = some t) := by
  intro v s d t
  constructor
  · intro name hn
    rw [getTs_update_stage, if_neg (fun hc => hn hc.2)]
  · intro h
    rw [getTs_update_stage, if_pos (And.intro h rfl)]

theorem updateStage_timestamp_behavior_witness :
    getTimestampAttr (update_stage sampleRecord "approved" [] 5) "rejected_at"
      = getTimestampAttr sampleRecord "rejected_at"
    ∧ getTimestampAttr (update_stage sampleRecord "approved" [] 5) "approved_at" = some 5 :=
  And.intro
    ((updateStage_timestamp_behavior sampleRecord "approved" [] 5).1 "rejected_at" (by decide))
    ((updateStage_timestamp_behavior sampleRecord "approved" [] 5).2 (by decide))

/-- Claim C10: a timestamp is recorded exactly for the stages whose literal
`stage ++ "_at"` attribute exists on the model — document_uploaded,
owner_verified, admin_review, approved and rejected; advancing to
api_verification_started, title_search_completed, encumbrance_check or
physical_location_verified writes no timestamp attribute at all, because
the columns are named `api_started_at` and `title_search_at` or are absent,
and every timestamp column stays unchanged on those four stages. -/
theorem updateStage_timestamp_fields :
    ((["document_uploaded", "owner_verified", "admin_review", "approved",
       "rejected"].all fun s => hasTimestampAttr (s ++ "_at")) = true)
    ∧ ((["api_verification_started", "title_search_completed", "encumbrance_check",
       "physical_location_verified"].all fun s => !hasTimestampAttr (s ++ "_at")) = true)
    ∧ (∀ (v : VerificationStatus) (d : Detail) (t : Nat) (name : String),
        getTimestampAttr (update_stage v "api_verification_started" d t) name
          = getTimestampAttr v name)
    ∧ (∀ (v : VerificationStatus) (d : Detail) (t : Nat) (name : String),
        getTimestampAttr (update_stage v "title_search_completed" d t) name
          = getTimestampAttr v name)
    ∧ (∀ (v : VerificationStatus) (d : Detail) (t : Nat) (name : String),
        getTimestampAttr (update_stage v "encumbrance_check" d t) name
          = getTimestampAttr v name)
    ∧ (∀ (v : VerificationStatus) (d : Detail) (t : Nat) (name : String),
        getTimestampAttr (update_stage v "physical_location_verified" d t) name
          = getTimestampAttr v name)
    ∧ (∀ (v : VerificationStatus) (d : Detail) (t : Nat),
        (update_stage v "document_uploaded" d t).document_uploaded_at = some t
        ∧ (update_stage v "owner_verified" d t).owner_verified_at = some t
        ∧ (update_stage v "admin_review" d t).admin_review_at = some t
        ∧ (update_stage v "approved" d t).approved_at = some t
        ∧ (update_stage v "rejected" d t).rejected_at = some t) := by
  refine ⟨by decide, by decide, ?_, ?_, ?_, ?_, ?_⟩
  · intro v d t name
    rw [getTs_update_stage, if_neg (fun hc => absurd hc.1 (by decide))]
  · intro v d t name
    rw [getTs_update_stage, if_neg (fun hc => absurd hc.1 (by decide))]
  · intro v d t name
    rw [getTs_update_stage, if_neg (fun hc => absurd hc.1 (by decide))]
  · intro v d t name
    rw [getTs_update_stage, if_neg (fun hc => absurd hc.1 (by decide))]
  · intro v d t
    have h1 := getTs_update_stage v "document_uploaded" d t "document_uploaded_at"
    have h2 := getTs_update_stage v "owner_verified" d t "owner_verified_at"
    have h3 := getTs_update_stage v "admin_review" d t "admin_review_at"
    have h4 := getTs_update_stage v "approved" d t "approved_at"
    have h5 := getTs_update_stage v "rejected" d t "rejected_at"
    rw [if_pos (And.intro (by decide) (by decide))] at h1 h2 h3 h4 h5
    exact ⟨by simpa [getTimestampAttr] using h1, by simpa [getTimestampAttr] using h2,
           by simpa [getTimestampAttr] using h3, by simpa [getTimestampAttr] using h4,
           by simpa [getTimestampAttr] using h5⟩

/-- Claim C6: `progress_percentage` equals the integer-truncated
`(ordinal + 1) / totalStages * 100` for every non-terminal stage of the
nine-stage graph, reports exactly 100 for both `approved` and `rejected`,
is non-decreasing along the ordered stage list, and reports 33 at
`title_search_completed`. -/
theorem progressPercentage_spec :
    (∀ v : VerificationStatus, v.current_stage ∈ stageKeys →
      v.current_stage ≠ "approved" → v.current_stage ≠ "rejected" →
      progress_percentage v = (stageKeys.indexOf v.current_stage + 1) * 100 / stageKeys.length)
    ∧ (∀ v : VerificationStatus, v.current_stage = "approved" ∨ v.current_stage = "rejected" →
      progress_percentage v = 100)
    ∧ nondecreasingB (stageKeys.map fun s => progress_percentage (mkStageRecord s)) = true
    ∧ progress_percentage (mkStageRecord "title_search_completed") = 33 := by
  refine ⟨?_, ?_, by decide, by decide⟩
  · intro v h h1 h2
    have hc : stageKeys.contains v.current_stage = true := by simpa using h
    rw [progress_percentage, if_neg h1, if_neg h2, if_pos hc]
  · intro v h
    rcases h with h | h <;> simp [progress_percentage, h]

theorem progressPercentage_spec_witness :
    progress_percentage (mkStageRecord "title_search_completed")
      = (stageKeys.indexOf (mkStageRecord "title_search_completed").current_stage + 1) * 100
          / stageKeys.length
    ∧ progress_percentage (mkStageRecord "approved") = 100 :=
  And.intro
    (progressPercentage_spec.1 (mkStageRecord "title_search_completed")
      (by decide) (by decide) (by decide))
    (progressPercentage_spec.2.1 (mkStageRecord "approved") (Or.inl rfl))

-- Dictionary assignment followed by lookup of the same key.
theorem lookup_setKey_self (m : List (String × Detail)) (k : String) (d : Detail) :
    (setKey m k d).lookup k = some d := by
  induction m with
  | nil => simp [setKey, List.lookup]
  | cons p rest ih =>
    rcases p with ⟨k0, d0⟩
    by_cases hk : k0 = k
    · subst hk; simp [setKey, List.lookup]
    · have hb : (k == k0) = false := by simpa using (Ne.symm hk)
      simp [setKey, hk, List.lookup, hb, ih]

/-- Claim C2 (code bug evidence): whenever the title search succeeds,
`start_verification` evaluates `owner_result["success"]` where
`owner_result` is the `None` returned by the unimplemented `verify_owner`
stub, so the call raises a `TypeError` instead of advancing the record
through `owner_verified` and `encumbrance_check` to `admin_review`. -/
theorem startVerification_stub_crash (v : VerificationStatus) (resp : TitleResponse)
    (now : Nat) (h : resp.verified = true) :
    start_verification v resp now
      = Except.error "TypeError: NoneType object is not subscriptable" := by
  simp [start_verification, search_title, verify_owner, h]

/-- Claim C2, witness: the crash happens on the canned mock reply itself. -/
theorem startVerification_stub_crash_witness :
    start_verification sampleRecord (mock_title_search "Jane Doe" "TITLE-2025-9" 4) 4
      = Except.error "TypeError: NoneType object is not subscriptable" :=
  startVerification_stub_crash sampleRecord (mock_title_search "Jane Doe" "TITLE-2025-9" 4) 4 rfl

/-- Claim C3: when the title search reports failure, `start_verification`
returns the failure envelope without raising, the record is forced to
`rejected` with the failure message stored under `reason` in the rejected
stage details, only the title-search reply was appended to the api
responses, and the owner-verification and admin-review stages were never
entered (their timestamps are untouched) — fail-fast, no retries. -/
theorem startVerification_failfast (v : VerificationStatus) (resp : TitleResponse)
    (t : Nat) (h : resp.verified = false) :
    ∃ v' res,
      start_verification v resp t = Except.ok (v', StartOutcome.failed res)
      ∧ v'.current_stage = "rejected"
      ∧ detailEntry v' "rejected" "reason" = some (DVal.s resp.message)
      ∧ res.success = false ∧ res.error = some resp.message
      ∧ v'.api_responses = v.api_responses ++ [⟨t, "title_search", resp⟩]
      ∧ v'.owner_verified_at = v.owner_verified_at
      ∧ v'.admin_review_at = v.admin_review_at := by
  have hs : start_verification v resp t
      = Except.ok (handle_failure
          (add_api_response (update_stage v "api_verification_started" [] t)
            "title_search" resp t)
          { success := false, error := some resp.message, data := none } t) := by
    simp [start_verification, search_title, h]
  refine ⟨(handle_failure
      (add_api_response (update_stage v "api_verification_started" [] t)
        "title_search" resp t)
      { success := false, error := some resp.message, data := none } t).1,
    { success := false, error := some resp.message, data := none },
    hs.trans (by rfl), ?_, ?_, rfl, rfl, ?_, ?_, ?_⟩
  · simp only [handle_failure]
    exact update_stage_current_stage _ _ _ _
  · simp only [handle_failure, detailEntry]
    rw [update_stage_stage_details]
    rw [if_neg (by simp)]
    rw [lookup_setKey_self]
    simp [List.lookup]
  · simp only [handle_failure]
    rw [update_stage_api_responses]
    simp only [add_api_response]
    rw [update_stage_api_responses]
  · simp only [handle_failure]
    have h1 := getTs_update_stage
      (add_api_response (update_stage v "api_verification_started" [] t) "title_search" resp t)
      "rejected"
      [("reason", DVal.s ((some resp.message).getD "Verification failed")),
       ("details", DVal.res { success := false, error := some resp.message, data := none })]
      t "owner_verified_at"
    rw [if_neg (fun hc => by simpa using hc.2)] at h1
    have h2 := getTs_update_stage v "api_verification_started" [] t "owner_verified_at"
    rw [if_neg (fun hc => absurd hc.1 (by decide))] at h2
    simpa [getTimestampAttr, add_api_response] using h1.trans h2
  · simp only [handle_failure]
    have h1 := getTs_update_stage
      (add_api_response (update_stage v "api_verification_started" [] t) "title_search" resp t)
      "rejected"
      [("reason", DVal.s ((some resp.message).getD "Verification failed")),
       ("details", DVal.res { success := false, error := some resp.message, data := none })]
      t "admin_review_at"
    rw [if_neg (fun hc => by simpa using hc.2)] at h1
    have h2 := getTs_update_stage v "api_verification_started" [] t "admin_review_at"
    rw [if_neg (fun hc => absurd hc.1 (by decide))] at h2
    simpa [getTimestampAttr, add_api_response] using h1.trans h2

/-- Claim C3, witness at a concrete failed title search. -/
theorem startVerification_failfast_witness :
    ∃ v' res,
      start_verification sampleRecord failResponse 4 = Except.ok (v', StartOutcome.failed res)
      ∧ v'.current_stage = "rejected"
      ∧ detailEntry v' "rejected" "reason" = some (DVal.s failResponse.message)
      ∧ res.success = false ∧ res.error = some failResponse.message
      ∧ v'.api_responses = sampleRecord.api_responses ++ [⟨4, "title_search", failResponse⟩]
      ∧ v'.owner_verified_at = sampleRecord.owner_verified_at
      ∧ v'.admin_review_at = sampleRecord.admin_review_at :=
  startVerification_failfast sampleRecord failResponse 4 rfl

-- Saving a mutation of the first matching row keeps it the first match.
theorem filter_head_replaceFirst (p : VerificationStatus → Bool)
    (f : VerificationStatus → VerificationStatus)
    (hp : ∀ x, p x = true → p (f x) = true) :
    ∀ (l : List VerificationStatus) (v0 : VerificationStatus),
      (l.filter p).head? = some v0 →
      ((replaceFirst p f l).filter p).head? = some (f v0) := by
  intro l
  induction l with
  | nil => intro v0 h; simp at h
  | cons a rest ih =>
    intro v0 h
    by_cases hpa : p a = true
    · rw [List.filter_cons_of_pos hpa] at h
      simp only [List.head?_cons, Option.some.injEq] at h
      subst h
      simp only [replaceFirst, if_pos hpa]
      rw [List.filter_cons_of_pos (hp a hpa)]
      rfl
    · rw [List.filter_cons_of_neg (by simpa using hpa)] at h
      simp only [replaceFirst, if_neg hpa]
      rw [List.filter_cons_of_neg (by simpa using hpa)]
      exact ih v0 h

/-- Claim C1: for a plot that has a verification record,
`check_plot_verification_completion` approves the record (stamping
`approved_at`), writes exactly one approval log row and returns true when
no task of the plot is pending or in progress; otherwise it returns false
and leaves the whole state untouched — so the record is never approved by
this aggregator while a pending or in-progress task exists. -/
theorem checkPlotCompletion_spec (plot : Plot) (st : SystemState) (now : Nat)
    (hrec : (firstVerification st plot.id).isSome = true) :
    (pendingTaskCount st plot.id = 0 →
      (check_plot_verification_completion plot st now).1 = true
      ∧ (∃ v', firstVerification (check_plot_verification_completion plot st now).2 plot.id
            = some v' ∧ v'.current_stage = "approved" ∧ v'.approved_at = some now)
      ∧ (check_plot_verification_completion plot st now).2.logs
          = st.logs ++ [approvalLog plot.id]
      ∧ (check_plot_verification_completion plot st now).2.tasks = st.tasks)
    ∧ (pendingTaskCount st plot.id ≠ 0 →
      check_plot_verification_completion plot st now = (false, st)) := by
  constructor
  · intro h0
    obtain ⟨v0, hv0⟩ := Option.isSome_iff_exists.mp hrec
    have hcall : check_plot_verification_completion plot st now
        = (true, { st with
            verifications := replaceFirst (isPlotVerification plot.id)
              (fun v => { v with current_stage := "approved", approved_at := some now })
              st.verifications,
            logs := st.logs ++ [approvalLog plot.id] }) := by
      simp only [check_plot_verification_completion, if_pos h0]
      rw [hv0]
    rw [hcall]
    refine ⟨rfl, ?_, rfl, rfl⟩
    refine ⟨{ v0 with current_stage := "approved", approved_at := some now }, ?_, rfl, rfl⟩
    have hp : ∀ x, isPlotVerification plot.id x = true →
        isPlotVerification plot.id
          { x with current_stage := "approved", approved_at := some now } = true := by
      intro x hx
      simpa [isPlotVerification] using hx
    exact filter_head_replaceFirst (isPlotVerification plot.id) _ hp st.verifications v0 hv0
  · intro h
    simp [check_plot_verification_completion, if_neg h]

/-- Claim C1, witness: a plot with a record and no tasks gets approved. -/
theorem checkPlotCompletion_spec_witness :
    (check_plot_verification_completion samplePlot sampleState 9).1 = true
    ∧ (∃ v', firstVerification (check_plot_verification_completion samplePlot sampleState 9).2
          samplePlot.id
          = some v' ∧ v'.current_stage = "approved" ∧ v'.approved_at = some 9)
    ∧ (check_plot_verification_completion samplePlot sampleState 9).2.logs
        = sampleState.logs ++ [approvalLog samplePlot.id]
    ∧ (check_plot_verification_completion samplePlot sampleState 9).2.tasks
        = sampleState.tasks :=
  (checkPlotCompletion_spec samplePlot sampleState 9 (by decide)).1 (by decide)

-- Task-table lemmas.
theorem hasTask_append_single (l : List VerificationTask) (task : VerificationTask)
    (pid : Nat) (ty : String) :
    hasTask (l ++ [task]) pid ty
      = (hasTask l pid ty || ((task.plot_id == pid) && (task.verification_type == ty))) := by
  simp [hasTask, List.any_append]

theorem get_or_create_hasTask_self (l : List VerificationTask) (pid : Nat)
    (ty : String) (now : Nat) :
    hasTask (get_or_create_task l pid ty now).1 pid ty = true := by
  unfold get_or_create_task
  by_cases hx : hasTask l pid ty = true
  · rw [if_pos hx]; exact hx
  · rw [if_neg hx]
    rw [hasTask_append_single]
    simp [mkPendingTask]

theorem get_or_create_hasTask_other (l : List VerificationTask) (pid : Nat)
    (ty : String) (now : Nat) (pid' : Nat) (ty' : String)
    (hne : ((pid == pid') && (ty == ty')) = false) :
    hasTask (get_or_create_task l pid ty now).1 pid' ty' = hasTask l pid' ty' := by
  unfold get_or_create_task
  by_cases hx : hasTask l pid ty = true
  · rw [if_pos hx]
  · rw [if_neg hx, hasTask_append_single]
    simp [mkPendingTask, hne]

theorem get_or_create_unique (l : List VerificationTask) (pid : Nat) (ty : String)
    (now : Nat) (h : UniqueTaskKeys l) :
    UniqueTaskKeys (get_or_create_task l pid ty now).1 := by
  unfold get_or_create_task
  by_cases hx : hasTask l pid ty = true
  · rw [if_pos hx]; exact h
  · rw [if_neg hx]
    have hall : ∀ a ∈ l, ¬(a.plot_id = pid ∧ a.verification_type = ty) := by
      intro a ha hc
      apply hx
      simp only [hasTask, List.any_eq_true]
      exact ⟨a, ha, by simp [hc.1, hc.2]⟩
    refine List.pairwise_append.mpr ⟨h, List.pairwise_singleton _ _, ?_⟩
    intro a ha b hb
    simp only [List.mem_singleton] at hb
    subst hb
    intro hc
    exact hall a ha (by simpa [mkPendingTask] using hc)


theorem hasTask_nil (pid : Nat) (ty : String) : hasTask [] pid ty = false := rfl

theorem hasTask_cons (t : VerificationTask) (l : List VerificationTask)
    (pid : Nat) (ty : String) :
    hasTask (t :: l) pid ty
      = (((t.plot_id == pid) && (t.verification_type == ty)) || hasTask l pid ty) := by
  simp [hasTask]

theorem hasTask_append (l1 l2 : List VerificationTask) (pid : Nat) (ty : String) :
    hasTask (l1 ++ l2) pid ty = (hasTask l1 pid ty || hasTask l2 pid ty) := by
  simp [hasTask, List.any_append]

set_option maxHeartbeats 2000000 in
theorem create_tasks_created (plot : Plot) (st : SystemState) (now : Nat) :
    (create_verification_tasks plot st now).1
      = (if hasTask st.tasks plot.id "document_review" = false
           then ["document_review"] else [])
        ++ (if plot.land_type = "agricultural"
              ∧ hasTask st.tasks plot.id "extension_review" = false
           then ["extension_review"] else [])
        ++ (if plot.area > 50
              ∧ hasTask st.tasks plot.id "surveyor_inspection" = false
           then ["surveyor_inspection"] else []) := by
  by_cases hd : hasTask st.tasks plot.id "document_review" = true <;>
  by_cases hl : plot.land_type = "agricultural" <;>
  by_cases ha : plot.area > 50 <;>
  by_cases he : hasTask st.tasks plot.id "extension_review" = true <;>
  by_cases hs : hasTask st.tasks plot.id "surveyor_inspection" = true <;>
  simp_all [create_verification_tasks, get_or_create_task, hasTask_append,
    hasTask_cons, hasTask_nil, mkPendingTask] <;>
  split_ifs <;>
  simp_all [hasTask_append, hasTask_cons, hasTask_nil, mkPendingTask]

set_option maxHeartbeats 2000000 in
theorem create_tasks_hasTask (plot : Plot) (st : SystemState) (now : Nat) :
    hasTask (create_verification_tasks plot st now).2.tasks plot.id "document_review" = true
    ∧ (plot.land_type = "agricultural" →
        hasTask (create_verification_tasks plot st now).2.tasks plot.id "extension_review" = true)
    ∧ (plot.area > 50 →
        hasTask (create_verification_tasks plot st now).2.tasks plot.id "surveyor_inspection"
          = true) := by
  by_cases hd : hasTask st.tasks plot.id "document_review" = true <;>
  by_cases hl : plot.land_type = "agricultural" <;>
  by_cases ha : plot.area > 50 <;>
  by_cases he : hasTask st.tasks plot.id "extension_review" = true <;>
  by_cases hs : hasTask st.tasks plot.id "surveyor_inspection" = true <;>
  simp_all [create_verification_tasks, get_or_create_task, hasTask_append,
    hasTask_cons, hasTask_nil, mkPendingTask] <;>
  split_ifs <;>
  simp_all [hasTask_append, hasTask_cons, hasTask_nil, mkPendingTask]

theorem create_tasks_unique (plot : Plot) (st : SystemState) (now : Nat)
    (h : UniqueTaskKeys st.tasks) :
    UniqueTaskKeys (create_verification_tasks plot st now).2.tasks := by
  by_cases hl : plot.land_type = "agricultural" <;>
  by_cases ha : plot.area > 50 <;>
  simp only [create_verification_tasks, hl, ha, if_true, if_false, ite_true, ite_false,
    eq_self_iff_true, not_true, not_false_iff] <;>
  solve_by_elim [get_or_create_unique]

theorem create_tasks_second (plot : Plot) (st : SystemState) (now t2 : Nat) :
    (create_verification_tasks plot (create_verification_tasks plot st now).2 t2).1 = [] := by
  obtain ⟨b1, b2, b3⟩ := create_tasks_hasTask plot st now
  rw [create_tasks_created]
  rw [if_neg (by simp [b1]), if_neg (fun hc => by simp [b2 hc.1] at hc),
    if_neg (fun hc => by simp [b3 hc.1] at hc)]
  rfl

/-- Claim C4: `create_verification_tasks` returns exactly the task types
newly created in the call — `document_review` whenever missing,
`extension_review` exactly for agricultural plots where it is missing,
`surveyor_inspection` exactly for plots over 50 acres where it is missing —
ensures the applicable tasks exist afterwards, preserves the at-most-one
task per (plot, type) invariant, and creates nothing on a repeated call. -/
theorem createTasks_spec (plot : Plot) (st : SystemState) (now : Nat)
    (h : UniqueTaskKeys st.tasks) :
    (create_verification_tasks plot st now).1
      = (if hasTask st.tasks plot.id "document_review" = false
           then ["document_review"] else [])
        ++ (if plot.land_type = "agricultural"
              ∧ hasTask st.tasks plot.id "extension_review" = false
           then ["extension_review"] else [])
        ++ (if plot.area > 50
              ∧ hasTask st.tasks plot.id "surveyor_inspection" = false
           then ["surveyor_inspection"] else [])
    ∧ hasTask (create_verification_tasks plot st now).2.tasks plot.id "document_review" = true
    ∧ (plot.land_type = "agricultural" →
        hasTask (create_verification_tasks plot st now).2.tasks plot.id "extension_review"
          = true)
    ∧ (plot.area > 50 →
        hasTask (create_verification_tasks plot st now).2.tasks plot.id "surveyor_inspection"
          = true)
    ∧ UniqueTaskKeys (create_verification_tasks plot st now).2.tasks
    ∧ (∀ t2, (create_verification_tasks plot (create_verification_tasks plot st now).2 t2).1
        = []) :=
  ⟨create_tasks_created plot st now,
   (create_tasks_hasTask plot st now).1,
   (create_tasks_hasTask plot st now).2.1,
   (create_tasks_hasTask plot st now).2.2,
   create_tasks_unique plot st now h,
   fun t2 => create_tasks_second plot st now t2⟩

/-- Claim C4, witness: on a fresh 10-acre agricultural plot the call
returns document review and extension review only, and a second call
creates nothing. -/
theorem createTasks_spec_witness :
    (create_verification_tasks samplePlot sampleState 3).1
      = ["document_review", "extension_review"]
    ∧ UniqueTaskKeys (create_verification_tasks samplePlot sampleState 3).2.tasks
    ∧ (create_verification_tasks samplePlot
        (create_verification_tasks samplePlot sampleState 3).2 4).1 = [] := by
  have h := createTasks_spec samplePlot sampleState 3 List.Pairwise.nil
  refine ⟨h.1.trans ?_, h.2.2.2.2.1, h.2.2.2.2.2 4⟩
  norm_num [samplePlot, sampleState, hasTask]

-- A changed critical field makes the collected change list non-empty
-- (a changed location means a changed county or subcounty, since the form
-- derives location from those two fields).
theorem critical_changes_ne_nil (orig : Plot) (d : CleanedData)
    (h : orig.title ≠ d.title
      ∨ combinedLocation orig.county orig.subcounty
          ≠ combinedLocation d.county d.subcounty
      ∨ orig.area ≠ d.area ∨ orig.price ≠ d.price) :
    critical_changes orig d ≠ [] := by
  have h' : orig.title ≠ d.title ∨ orig.county ≠ d.county ∨ orig.subcounty ≠ d.subcounty
      ∨ orig.area ≠ d.area ∨ orig.price ≠ d.price := by
    rcases h with h | h | h | h
    · exact Or.inl h
    · by_cases hc : orig.county = d.county
      · refine Or.inr (Or.inr (Or.inl ?_))
        intro hs
        exact h (by rw [combinedLocation, combinedLocation, hc, hs])
      · exact Or.inr (Or.inl hc)
    · exact Or.inr (Or.inr (Or.inr (Or.inl h)))
    · exact Or.inr (Or.inr (Or.inr (Or.inr h)))
  intro hc
  rcases h' with h' | h' | h' | h' | h' <;>
    simp [critical_changes, h', List.append_eq_nil] at hc

theorem resetTask_mem (l : List VerificationTask) (pid : Nat) :
    ∀ t ∈ l.map (resetTask pid), t.plot_id = pid →
      t.status = "pending" ∧ t.assigned_to = none ∧ t.completed_at = none
      ∧ t.approved = none := by
  intro t ht hpid
  rcases List.mem_map.mp ht with ⟨t0, ht0, rfl⟩
  by_cases hp : (t0.plot_id == pid) = true
  · simp [resetTask, hp]
  · rw [resetTask, if_neg (by simpa using hp)] at hpid
    exact absurd (by simp [hpid]) hp

theorem resetRecord_fields (username : String) (now : Nat) (changes : List String)
    (v : VerificationStatus) :
    (resetVerificationRecord username now changes v).current_stage = "document_uploaded"
    ∧ (resetVerificationRecord username now changes v).approved_at = none
    ∧ (resetVerificationRecord username now changes v).rejected_at = none
    ∧ isPlotVerification v.object_id (resetVerificationRecord username now changes v)
        = isPlotVerification v.object_id v := by
  simp [resetVerificationRecord, isPlotVerification]

/-- Claim C5: editing any critical field — title, location (county or
subcounty, from which the form derives location), area or price — of a
plot makes `edit_plot` reset the verification record of the plot to
`document_uploaded` with `approved_at` and `rejected_at` cleared, reset
every task of the plot to pending with assignee, completion time and
approval cleared, and append a log row recording the triggering changes. -/
theorem editPlot_reset_spec (orig : Plot) (d : CleanedData) (st : SystemState)
    (username : String) (now : Nat)
    (hcrit : orig.title ≠ d.title
      ∨ combinedLocation orig.county orig.subcounty
          ≠ combinedLocation d.county d.subcounty
      ∨ orig.area ≠ d.area ∨ orig.price ≠ d.price) :
    (∃ v', firstVerification (edit_plot_postsave orig d st username now) orig.id = some v'
        ∧ v'.current_stage = "document_uploaded" ∧ v'.approved_at = none
        ∧ v'.rejected_at = none)
    ∧ (∀ t ∈ (edit_plot_postsave orig d st username now).tasks, t.plot_id = orig.id →
        t.status = "pending" ∧ t.assigned_to = none ∧ t.completed_at = none
        ∧ t.approved = none)
    ∧ (edit_plot_postsave orig d st username now).logs
        = st.logs ++ [resetLog orig.id username (critical_changes orig d)] := by
  have hch := critical_changes_ne_nil orig d hcrit
  have hp : ∀ x, isPlotVerification orig.id x = true →
      isPlotVerification orig.id
        (resetVerificationRecord username now (critical_changes orig d) x) = true := by
    intro x hx
    simpa [isPlotVerification, resetVerificationRecord] using hx
  by_cases hex : (firstVerification st orig.id).isSome = true
  · obtain ⟨v0, hv0⟩ := Option.isSome_iff_exists.mp hex
    have hres : edit_plot_postsave orig d st username now
        = { st with
            verifications := replaceFirst (isPlotVerification orig.id)
              (resetVerificationRecord username now (critical_changes orig d))
              st.verifications,
            tasks := st.tasks.map (resetTask orig.id),
            logs := st.logs ++ [resetLog orig.id username (critical_changes orig d)] } := by
      simp only [edit_plot_postsave]
      rw [if_neg hch, if_pos hex]
    rw [hres]
    refine ⟨⟨resetVerificationRecord username now (critical_changes orig d) v0,
      ?_, ?_, ?_, ?_⟩, resetTask_mem _ _, rfl⟩
    · exact filter_head_replaceFirst _ _ hp st.verifications v0
        (by simpa [firstVerification] using hv0)
    · exact (resetRecord_fields username now (critical_changes orig d) v0).1
    · exact (resetRecord_fields username now (critical_changes orig d) v0).2.1
    · exact (resetRecord_fields username now (critical_changes orig d) v0).2.2.1
  · have hnone : firstVerification st orig.id = none :=
      Option.not_isSome_iff_eq_none.mp (by simpa using hex)
    have hfe : st.verifications.filter (isPlotVerification orig.id) = [] := by
      have := hnone
      simp only [firstVerification] at this
      exact List.head?_eq_none_iff.mp this
    have hv0 : firstVerification
        { st with verifications :=
            st.verifications ++ [{ content_type := "plot", object_id := orig.id }] }
        orig.id = some { content_type := "plot", object_id := orig.id } := by
      simp only [firstVerification, List.filter_append, hfe]
      simp [isPlotVerification]
    have hres : edit_plot_postsave orig d st username now
        = { st with
            verifications := replaceFirst (isPlotVerification orig.id)
              (resetVerificationRecord username now (critical_changes orig d))
              (st.verifications ++ [{ content_type := "plot", object_id := orig.id }]),
            tasks := st.tasks.map (resetTask orig.id),
            logs := st.logs ++ [resetLog orig.id username (critical_changes orig d)] } := by
      simp only [edit_plot_postsave]
      rw [if_neg hch, if_neg hex]
    rw [hres]
    refine ⟨⟨resetVerificationRecord username now (critical_changes orig d)
        { content_type := "plot", object_id := orig.id },
      ?_, ?_, ?_, ?_⟩, resetTask_mem _ _, rfl⟩
    · exact filter_head_replaceFirst _ _ hp
        (st.verifications ++ [{ content_type := "plot", object_id := orig.id }])
        { content_type := "plot", object_id := orig.id }
        (by simpa [firstVerification] using hv0)
    · exact (resetRecord_fields username now (critical_changes orig d) _).1
    · exact (resetRecord_fields username now (critical_changes orig d) _).2.1
    · exact (resetRecord_fields username now (critical_changes orig d) _).2.2.1

/-- Claim C5, witness: an area change on the sample plot resets its
verification state. -/
theorem editPlot_reset_spec_witness :
    (∃ v', firstVerification
        (edit_plot_postsave samplePlot sampleCleaned sampleState "amina" 6) samplePlot.id
        = some v'
        ∧ v'.current_stage = "document_uploaded" ∧ v'.approved_at = none
        ∧ v'.rejected_at = none)
    ∧ (∀ t ∈ (edit_plot_postsave samplePlot sampleCleaned sampleState "amina" 6).tasks,
        t.plot_id = samplePlot.id →
        t.status = "pending" ∧ t.assigned_to = none ∧ t.completed_at = none
        ∧ t.approved = none)
    ∧ (edit_plot_postsave samplePlot sampleCleaned sampleState "amina" 6).logs
        = sampleState.logs
          ++ [resetLog samplePlot.id "amina" (critical_changes samplePlot sampleCleaned)] :=
  editPlot_reset_spec samplePlot sampleCleaned sampleState "amina" 6
    (Or.inr (Or.inr (Or.inl (by norm_num [samplePlot, sampleCleaned]))))
